import Mathlib

set_option linter.unusedVariables false
set_option maxRecDepth 8000

/-!
Shallow embedding of the trubrics-sdk CLI (src/trubrics/cli/main.py).

Python dicts and JSON objects are modelled as association lists from
string keys to string values; the filesystem is an association list from
paths to file contents.  Each CLI command is embedded as a pure function
from its inputs (CLI options, prompted values, the parsed body of the one
network response, the filesystem) to a result -- an `Except` value mirrors
a normal return versus a raised exception, which typer turns into a
non-zero process exit -- together with the ordered list of observable
effects the command performs (terminal output, network requests, file
writes).  Terminal colour styling is dropped, as it carries no
orchestration content.
-/

/-- Python membership test `k in d.keys()` on an association list. -/
def containsKey {α : Type} : List (String × α) → String → Bool
  | [], _ => false
  | (a, _) :: rest, k => a == k || containsKey rest k

/-- Python subscript `d[k]`, with `none` standing for a raised `KeyError`
(and, on the filesystem, for a missing path). -/
def lookupKey {α : Type} : List (String × α) → String → Option α
  | [], _ => none
  | (a, w) :: rest, k => if a == k then some w else lookupKey rest k

/-- Helper for `setKey`: replace the value at an existing key in place. -/
def replaceKey {α : Type} : List (String × α) → String → α → List (String × α)
  | [], _, _ => []
  | (a, w) :: rest, k, v => (bif a == k then (k, v) else (a, w)) :: replaceKey rest k v

/-- Python dict assignment `d[k] = v`: replace in place when the key
exists, append otherwise (insertion order preserved, as for a dict). -/
def setKey {α : Type} (l : List (String × α)) (k : String) (v : α) : List (String × α) :=
  if containsKey l k then replaceKey l k v else l ++ [(k, v)]

/-- A parsed JSON object.  Values are kept opaque as strings: every value
the CLI itself reads (`trubric_run_path`, `api_url`, `user_id`, `msg`) is
a string in the source. -/
abbrev Obj := List (String × String)

/-- Python `str.endswith`, as a suffix test on the character lists. -/
def strEndsWith (s suffix : String) : Bool :=
  List.isSuffixOf suffix.data s.data

/-- Python `str.upper`, mapping each character to upper case. -/
def strUpper (s : String) : String :=
  String.mk (s.data.map Char.toUpper)

/-- Python truthiness of an `Optional[str]`: `None` and the empty string
are falsy. -/
def truthy : Option String → Bool
  | none => false
  | some s => s.length != 0

/-- One element of the sequence returned by `run_trubric`: the fields of a
validation result that the `run` command reads (`validation_type`,
`severity`, `outcome`). -/
structure ValidationResult where
  validation_type : String
  severity : String
  outcome : String
  deriving DecidableEq

/-- One declared validation of a validation plan.  The semantics of the
user-defined check is out of scope, so the outcome its evaluation will
produce is carried as data (`outcome`, compared against the literal
string "pass" by the reporter). -/
structure ValidationDecl where
  validation_type : String
  severity : String
  outcome : String
  deriving DecidableEq

/-- The trubric context object: the fields `run` reads (`model_name`) and
mutates (`validations`). -/
structure TrubricContext where
  model_name : String
  validations : List ValidationResult
  deriving DecidableEq

/-- The data context object: the field `run` reads (`name`). -/
structure DataContext where
  name : String
  deriving DecidableEq

/-- The `TrubricRun` object holding the contexts needed to run a trubric. -/
structure TrubricRun where
  validation_plan : List ValidationDecl
  trubric_context : TrubricContext
  deriving DecidableEq

/-- The possible values of a module attribute named `RUN_CONTEXT`: either
an instance of `TrubricRun` or some other object. -/
inductive RunContextAttr
  | isTrubricRun (tr : TrubricRun)
  | notTrubricRun
  deriving DecidableEq

/-- A loaded python module, with the attributes `run` accesses:
`RUN_CONTEXT` (possibly absent: `none` mirrors `hasattr` returning
false), `data_context` and `trubric_context`. -/
structure PyModule where
  RUN_CONTEXT : Option RunContextAttr
  data_context : DataContext
  trubric_context : TrubricContext
  deriving DecidableEq

/-- Content of a file on the modelled filesystem: a JSON object (config
files), a python module (run scripts), or a saved trubric report. -/
inductive FileContent
  | json (o : Obj)
  | py (m : PyModule)
  | report (ctx : TrubricContext)
  deriving DecidableEq

/-- The filesystem: paths mapped to file contents. -/
abbrev FS := List (String × FileContent)

/-- Observable effects a command performs, in program order. -/
inductive Eff
  | netRequest (url : String)
  | echo (msg : String)
  | rprintObj (o : Obj)
  | fileWrite (path : String) (content : Obj)
  | saveLocal (path file_name : String) (ctx : TrubricContext)
  | saveRemote (url user_id : String) (ctx : TrubricContext)
  | importModule (path : String)
  deriving DecidableEq

def Eff.isFileWrite : Eff → Bool
  | .fileWrite _ _ => true
  | _ => false

def Eff.isSaveLocal : Eff → Bool
  | .saveLocal _ _ _ => true
  | _ => false

def Eff.isSaveRemote : Eff → Bool
  | .saveRemote _ _ _ => true
  | _ => false

def Eff.isNetRequest : Eff → Bool
  | .netRequest _ => true
  | _ => false

/-- Applying one effect to the filesystem: `fileWrite` stores a JSON
object, `saveLocal` stores the report at `path/file_name`; the other
effects do not touch the filesystem. -/
def applyEff (fs : FS) : Eff → FS
  | .fileWrite p o => setKey fs p (.json o)
  | .saveLocal p n ctx => setKey fs (p ++ "/" ++ n) (.report ctx)
  | _ => fs

/-- Applying a trace of effects to the filesystem, in order. -/
def applyEffs (fs : FS) (effs : List Eff) : FS := effs.foldl applyEff fs

/-- True exactly on the exception results of a command. -/
def resultIsError {ε α : Type} : Except ε α → Bool
  | .error _ => true
  | .ok _ => false

/-- The fields of a declared validation carried into its result. -/
def declToResult (d : ValidationDecl) : ValidationResult :=
  { validation_type := d.validation_type, severity := d.severity, outcome := d.outcome }

/-- Modelled from the spec: the Run Executor `run_trubric` lives in
trubrics/validations/run.py, which is not under src/.  Per the spec it
iterates the validation plan in declaration order and produces exactly one
outcome per declared validation, capturing an internal failure of a check
as a fail outcome rather than raising, so the evaluated outcome of each
declaration is carried by the declaration itself. -/
def run_trubric (tr : TrubricRun) : List ValidationResult :=
  tr.validation_plan.map declToResult

/-- The local variable `message_start` of the reporter loop:
`f"{validation_type} - {severity.upper()}"`. -/
def message_start (validation_result : ValidationResult) : String :=
  validation_result.validation_type ++ " - " ++ strUpper validation_result.severity

/-- The local variable `completed_dots` of the reporter loop:
`(100 - len(message_start)) * "."` (the empty string when the python
subtraction is negative, matching truncated subtraction on Nat). -/
def completed_dots (validation_result : ValidationResult) : String :=
  String.mk (List.replicate (100 - (message_start validation_result).length) '.')

/-- The local variable `ending` of the reporter loop (styling dropped). -/
def ending (validation_result : ValidationResult) : String :=
  if validation_result.outcome == "pass" then "PASSED" else "FAILED"

/-- The echoed per-validation line `message = message_start + completed_dots
+ ending`. -/
def message (validation_result : ValidationResult) : String :=
  message_start validation_result ++ completed_dots validation_result
    ++ ending validation_result

/-- The column at which the pass/fail marker starts on a reported line. -/
def markerColumn (validation_result : ValidationResult) : Nat :=
  (message_start validation_result ++ completed_dots validation_result).length

/-- The `for validation_result in all_validation_results` loop of `run`:
builds the `validations` list by appending in iteration order and echoes
one formatted line per result. -/
def runLoop : List ValidationResult → List ValidationResult × List Eff
  | [] => ([], [])
  | validation_result :: rest =>
    let tail := runLoop rest
    (validation_result :: tail.1, Eff.echo (message validation_result) :: tail.2)

/-- The warning surfaced when the remote save fails. -/
def remoteWarningMessage : String :=
  "WARNING: failed to save trubric to the trubrics manager"

/-- Modelled from the spec: `TrubricContext.save_ui` is not under src/.
Per the spec it transmits the report to the remote service over one
network call; a transport failure is caught, reported to the user as a
warning and not re-raised (remote-save errors are downgraded to
warnings).  The input `remoteOk` says whether the transport succeeds. -/
def TrubricContext.save_ui (ctx : TrubricContext) (url user_id : String)
    (remoteOk : Bool) : List Eff :=
  if remoteOk then [Eff.saveRemote url user_id ctx]
  else [Eff.saveRemote url user_id ctx, Eff.echo remoteWarningMessage]

/-- The exceptions the `run` command can raise. -/
inductive RunError
  | missingConfigPathError (msg : String)
  | jsonDecodeError
  | keyError (key : String)
  | fileNotFoundError (path : String)
  | importError (path : String)
  | attributeError (msg : String)
  | typeError (msg : String)
  deriving DecidableEq

/-- The fixed name of the config file, joined under the config path. -/
def configFileName : String := ".trubrics_config.json"

/-- The blue header line echoed before the validations execute. -/
def headerMessage (trubric_run_path : String) (run_context : TrubricRun)
    (tc : PyModule) : String :=
  "Running trubric from file " ++ trubric_run_path
    ++ " with model " ++ run_context.trubric_context.model_name
    ++ " and dataset " ++ tc.data_context.name ++ "."

/-- The error echoed when `--save-ui` is set on a local-only config. -/
def authErrorMessage : String :=
  "ERROR: You must authenticate with the trubrics manager by running"
    ++ " `trubrics init` to remotely save trubrics runs."

/-- The CLI `trubrics run` command (src/trubrics/cli/main.py, `run`).
Inputs: the `save_ui` flag, the three path options, whether the remote
transport would succeed, and the filesystem.  Output: the result (an
exception aborts with non-zero exit) and the ordered effect trace. -/
def run (save_ui : Bool)
    (trubric_config_path trubric_output_file_path trubric_output_file_name : String)
    (remoteOk : Bool) (fs : FS) : Except RunError Unit × List Eff :=
  let trubric_config_file_path := trubric_config_path ++ "/" ++ configFileName
  match lookupKey fs trubric_config_file_path with
  | none =>
    (.error (.missingConfigPathError ("The trubric configuration file "
      ++ trubric_config_file_path
      ++ " has not been found. Run `trubrics init` to create file.")), [])
  | some (.py _) => (.error .jsonDecodeError, [])
  | some (.report _) => (.error .jsonDecodeError, [])
  | some (.json trubrics_config) =>
    match lookupKey trubrics_config "trubric_run_path" with
    | none => (.error (.keyError "trubric_run_path"), [])
    | some trubric_run_path =>
      match lookupKey fs trubric_run_path with
      | none =>
        (.error (.fileNotFoundError trubric_run_path), [.importModule trubric_run_path])
      | some (.json _) =>
        (.error (.importError trubric_run_path), [.importModule trubric_run_path])
      | some (.report _) =>
        (.error (.importError trubric_run_path), [.importModule trubric_run_path])
      | some (.py tc) =>
        match tc.RUN_CONTEXT with
        | none =>
          (.error (.attributeError
            "Trubrics config python module must contain an attribute RUN_CONTEXT."),
           [.importModule trubric_run_path])
        | some .notTrubricRun =>
          (.error (.typeError "RUN_CONTEXT attribute must be of type TrubricRun."),
           [.importModule trubric_run_path])
        | some (.isTrubricRun run_context) =>
          let headerMsg := headerMessage trubric_run_path run_context tc
          let loop := runLoop (run_trubric run_context)
          let new_trubric_context := { tc.trubric_context with validations := loop.1 }
          let baseEffs := Eff.importModule trubric_run_path :: Eff.echo headerMsg
            :: loop.2
            ++ [Eff.saveLocal trubric_output_file_path trubric_output_file_name
                  new_trubric_context]
          if save_ui then
            match lookupKey trubrics_config "user_id" with
            | some user_id =>
              match lookupKey trubrics_config "api_url" with
              | some api_url =>
                (.ok (), baseEffs ++ new_trubric_context.save_ui api_url user_id remoteOk)
              | none => (.error (.keyError "api_url"), baseEffs)
            | none => (.ok (), baseEffs ++ [Eff.echo authErrorMessage])
          else (.ok (), baseEffs)

/-- The exceptions the `init` command can raise: `abort` is the
`typer.Abort()` on auth rejection, `keyError` the subscript of a missing
key, `missingTrubricRunFileError` the run-path check. -/
inductive InitError
  | abort
  | keyError (key : String)
  | missingTrubricRunFileError (msg : String)
  deriving DecidableEq

/-- Tail of `init` after the authentication branch: validate the run
path, record it, print the record and write the config file. -/
def finishInit (res : Obj) (trubric_run_path trubric_config_path : String)
    (fs : FS) (effs : List Eff) : Except InitError Unit × List Eff :=
  if !containsKey fs trubric_run_path || !strEndsWith trubric_run_path ".py" then
    (.error (.missingTrubricRunFileError
      "Trubric run file path does not exist or is not a .py file."), effs)
  else
    let res2 := setKey res "trubric_run_path" trubric_run_path
    (.ok (), effs ++ [Eff.rprintObj res2,
      Eff.fileWrite (trubric_config_path ++ "/" ++ configFileName) res2])

/-- The CLI `trubrics init` command (src/trubrics/cli/main.py, `init`).
Inputs: the optional api url, the prompted user id, the parsed JSON body
of the handshake response (the remote service is external, so its answer
is an input; traces where the transport itself fails are not modelled),
the two path options and the filesystem. -/
def init (trubrics_api_url : Option String) (uid : String) (handshakeResponse : Obj)
    (trubric_run_path trubric_config_path : String) (fs : FS) :
    Except InitError Unit × List Eff :=
  if truthy trubrics_api_url then
    let u := trubrics_api_url.getD ""
    let netEff := Eff.netRequest (u ++ "/api/is_user/" ++ uid)
    let res := handshakeResponse
    if containsKey res "is_user" then
      match lookupKey res "msg" with
      | some m => (.error .abort, [netEff, Eff.echo m])
      | none => (.error (.keyError "msg"), [netEff])
    else
      finishInit (setKey res "api_url" u) trubric_run_path trubric_config_path fs
        [netEff, Eff.echo ("Trubrics configuration has been set and user is"
          ++ " authenticated with the trubrics manager UI:")]
  else
    finishInit [] trubric_run_path trubric_config_path fs
      [Eff.echo "Trubrics config set without trubrics manager authentication:"]

theorem containsKey_append {α : Type} (l₁ l₂ : List (String × α)) (k : String) :
    containsKey (l₁ ++ l₂) k = (containsKey l₁ k || containsKey l₂ k) := by
  induction l₁ with
  | nil => simp [containsKey]
  | cons hd tl ih => cases hd; simp [containsKey, ih, Bool.or_assoc]

theorem containsKey_replaceKey {α : Type} (l : List (String × α)) (k k' : String) (v : α) :
    containsKey (replaceKey l k v) k' = containsKey l k' := by
  induction l with
  | nil => rfl
  | cons hd tl ih =>
    obtain ⟨a, w⟩ := hd
    cases h : a == k with
    | true =>
      have ha : a = k := by simpa using h
      subst ha
      simp [replaceKey, containsKey, ih, h]
    | false => simp [replaceKey, containsKey, ih, h]

theorem containsKey_setKey {α : Type} (l : List (String × α)) (k k' : String) (v : α) :
    containsKey (setKey l k v) k' = (containsKey l k' || k == k') := by
  unfold setKey
  by_cases h : containsKey l k = true
  · rw [if_pos h, containsKey_replaceKey]
    by_cases hk : k = k'
    · subst hk; simp [h]
    · simp [hk]
  · rw [if_neg h, containsKey_append]
    simp [containsKey]

theorem runLoop_fst (l : List ValidationResult) : (runLoop l).1 = l := by
  induction l with
  | nil => rfl
  | cons hd tl ih => simp [runLoop, ih]

theorem runLoop_snd (l : List ValidationResult) :
    (runLoop l).2 = l.map (fun v => Eff.echo (message v)) := by
  induction l with
  | nil => rfl
  | cons hd tl ih => simp [runLoop, ih]

/-- Sample run context used by the concrete witnesses below. -/
def sampleRun : TrubricRun :=
  { validation_plan :=
      [{ validation_type := "validate_minimum_functionality", severity := "error",
         outcome := "pass" },
       { validation_type := "validate_performance", severity := "warning",
         outcome := "fail" }],
    trubric_context := { model_name := "my_model", validations := [] } }

/-- Sample loaded module with a well-typed `RUN_CONTEXT`. -/
def sampleModule : PyModule :=
  { RUN_CONTEXT := some (.isTrubricRun sampleRun),
    data_context := { name := "my_dataset" },
    trubric_context := { model_name := "my_model", validations := [] } }

/-- C9: when no config record file exists at the expected location, `run`
raises `missingConfigPathError` (the `MissingConfigPathError` of the
source, the `ConfigNotFoundError` of the spec) directing the user to
re-run init, and performs no effect at all: no script is loaded and no
validation executes. -/
theorem run_missing_config
    (save_ui : Bool) (trubric_config_path p n : String) (remoteOk : Bool) (fs : FS)
    (hcfg : lookupKey fs (trubric_config_path ++ "/" ++ configFileName) = none) :
    (run save_ui trubric_config_path p n remoteOk fs).1 =
      .error (.missingConfigPathError ("The trubric configuration file "
        ++ (trubric_config_path ++ "/" ++ configFileName)
        ++ " has not been found. Run `trubrics init` to create file.")) ∧
    (run save_ui trubric_config_path p n remoteOk fs).2 = [] := by
  simp [run, hcfg]

theorem run_missing_config_witness :
    (run false "." "." "out.json" false []).1 =
      .error (.missingConfigPathError ("The trubric configuration file "
        ++ ("." ++ "/" ++ configFileName)
        ++ " has not been found. Run `trubrics init` to create file.")) ∧
    (run false "." "." "out.json" false []).2 = [] :=
  run_missing_config false "." "." "out.json" false [] (by decide)

/-- Sample loaded module lacking the `RUN_CONTEXT` attribute. -/
def sampleModuleNoCtx : PyModule :=
  { RUN_CONTEXT := none,
    data_context := { name := "my_dataset" },
    trubric_context := { model_name := "my_model", validations := [] } }

/-- C5: when the successfully loaded module lacks the required top-level
`RUN_CONTEXT` attribute, `run` always raises the attribute error (the
`EntryPointMissingError` of the spec) and never silently proceeds: the
trace stops at the module import, with no validation executed and no
save performed. -/
theorem run_missing_run_context
    (save_ui : Bool) (trubric_config_path p n : String) (remoteOk : Bool) (fs : FS)
    (trubrics_config : Obj) (trubric_run_path : String) (tc : PyModule)
    (hcfg : lookupKey fs (trubric_config_path ++ "/" ++ configFileName) =
      some (.json trubrics_config))
    (hrp : lookupKey trubrics_config "trubric_run_path" = some trubric_run_path)
    (hmod : lookupKey fs trubric_run_path = some (.py tc))
    (hrc : tc.RUN_CONTEXT = none) :
    (run save_ui trubric_config_path p n remoteOk fs).1 =
      .error (.attributeError
        "Trubrics config python module must contain an attribute RUN_CONTEXT.") ∧
    (run save_ui trubric_config_path p n remoteOk fs).2 =
      [Eff.importModule trubric_run_path] := by
  simp [run, hcfg, hrp, hmod, hrc]

theorem run_missing_run_context_witness :
    (run false "." "." "out.json" false
      [("./.trubrics_config.json", .json [("trubric_run_path", "run.py")]),
       ("run.py", .py sampleModuleNoCtx)]).1 =
      .error (.attributeError
        "Trubrics config python module must contain an attribute RUN_CONTEXT.") ∧
    (run false "." "." "out.json" false
      [("./.trubrics_config.json", .json [("trubric_run_path", "run.py")]),
       ("run.py", .py sampleModuleNoCtx)]).2 = [Eff.importModule "run.py"] :=
  run_missing_run_context false "." "." "out.json" false
    [("./.trubrics_config.json", .json [("trubric_run_path", "run.py")]),
     ("run.py", .py sampleModuleNoCtx)]
    [("trubric_run_path", "run.py")] "run.py" sampleModuleNoCtx
    (by decide) (by decide) (by decide) (by decide)

/-- Sample loaded module whose `RUN_CONTEXT` is not a `TrubricRun`. -/
def sampleModuleBadCtx : PyModule :=
  { RUN_CONTEXT := some .notTrubricRun,
    data_context := { name := "my_dataset" },
    trubric_context := { model_name := "my_model", validations := [] } }

/-- C6: when the loaded module has a `RUN_CONTEXT` attribute that is not
an instance of `TrubricRun`, `run` raises the type error (the
`EntryPointTypeError` of the spec) and aborts before any validation
executes: the trace stops at the module import. -/
theorem run_bad_run_context_type
    (save_ui : Bool) (trubric_config_path p n : String) (remoteOk : Bool) (fs : FS)
    (trubrics_config : Obj) (trubric_run_path : String) (tc : PyModule)
    (hcfg : lookupKey fs (trubric_config_path ++ "/" ++ configFileName) =
      some (.json trubrics_config))
    (hrp : lookupKey trubrics_config "trubric_run_path" = some trubric_run_path)
    (hmod : lookupKey fs trubric_run_path = some (.py tc))
    (hrc : tc.RUN_CONTEXT = some .notTrubricRun) :
    (run save_ui trubric_config_path p n remoteOk fs).1 =
      .error (.typeError "RUN_CONTEXT attribute must be of type TrubricRun.") ∧
    (run save_ui trubric_config_path p n remoteOk fs).2 =
      [Eff.importModule trubric_run_path] := by
  simp [run, hcfg, hrp, hmod, hrc]

theorem run_bad_run_context_type_witness :
    (run false "." "." "out.json" false
      [("./.trubrics_config.json", .json [("trubric_run_path", "run.py")]),
       ("run.py", .py sampleModuleBadCtx)]).1 =
      .error (.typeError "RUN_CONTEXT attribute must be of type TrubricRun.") ∧
    (run false "." "." "out.json" false
      [("./.trubrics_config.json", .json [("trubric_run_path", "run.py")]),
       ("run.py", .py sampleModuleBadCtx)]).2 = [Eff.importModule "run.py"] :=
  run_bad_run_context_type false "." "." "out.json" false
    [("./.trubrics_config.json", .json [("trubric_run_path", "run.py")]),
     ("run.py", .py sampleModuleBadCtx)]
    [("trubric_run_path", "run.py")] "run.py" sampleModuleBadCtx
    (by decide) (by decide) (by decide) (by decide)

/-- Sample filesystem with a local-only config and the sample run script. -/
def sampleFsLocal : FS :=
  [("./.trubrics_config.json", .json [("trubric_run_path", "run.py")]),
   ("run.py", .py sampleModule)]

/-- Sample filesystem with a remote-enabled config and the run script. -/
def sampleFsRemote : FS :=
  [("./.trubrics_config.json",
    .json [("trubric_run_path", "run.py"), ("api_url", "http://api"),
           ("user_id", "u1")]),
   ("run.py", .py sampleModule)]

/-- C2: on a local-only config record (neither `api_url` nor `user_id`
present), `run --save-ui` skips the remote save entirely -- its trace
holds no network request and no remote save -- echoes the authentication
error, and still completes with the local report saved: the result is a
normal return, not an exception. -/
theorem run_save_ui_local_only
    (trubric_config_path p n : String) (remoteOk : Bool) (fs : FS)
    (trubrics_config : Obj) (trubric_run_path : String) (tc : PyModule)
    (run_context : TrubricRun)
    (hcfg : lookupKey fs (trubric_config_path ++ "/" ++ configFileName) =
      some (.json trubrics_config))
    (hrp : lookupKey trubrics_config "trubric_run_path" = some trubric_run_path)
    (hmod : lookupKey fs trubric_run_path = some (.py tc))
    (hrc : tc.RUN_CONTEXT = some (.isTrubricRun run_context))
    (hapi : lookupKey trubrics_config "api_url" = none)
    (huser : lookupKey trubrics_config "user_id" = none) :
    (run true trubric_config_path p n remoteOk fs).1 = .ok () ∧
    ((run true trubric_config_path p n remoteOk fs).2.all
      (fun e => !e.isNetRequest && !e.isSaveRemote)) = true ∧
    Eff.echo authErrorMessage ∈ (run true trubric_config_path p n remoteOk fs).2 ∧
    Eff.saveLocal p n
        { tc.trubric_context with validations := run_trubric run_context } ∈
      (run true trubric_config_path p n remoteOk fs).2 := by
  have hrun : run true trubric_config_path p n remoteOk fs =
      (.ok (), Eff.importModule trubric_run_path
        :: Eff.echo (headerMessage trubric_run_path run_context tc)
        :: ((run_trubric run_context).map (fun v => Eff.echo (message v))
          ++ [Eff.saveLocal p n
                { tc.trubric_context with validations := run_trubric run_context },
              Eff.echo authErrorMessage])) := by
    simp [run, hcfg, hrp, hmod, hrc, huser, runLoop_fst, runLoop_snd]
  rw [hrun]
  refine ⟨rfl, ?_, by simp, by simp⟩
  simp [List.all_map, Function.comp, Eff.isNetRequest, Eff.isSaveRemote]

theorem run_save_ui_local_only_witness :
    (run true "." "." "out.json" false sampleFsLocal).1 = .ok () ∧
    ((run true "." "." "out.json" false sampleFsLocal).2.all
      (fun e => !e.isNetRequest && !e.isSaveRemote)) = true ∧
    Eff.echo authErrorMessage ∈ (run true "." "." "out.json" false sampleFsLocal).2 ∧
    Eff.saveLocal "." "out.json"
        { sampleModule.trubric_context with validations := run_trubric sampleRun } ∈
      (run true "." "." "out.json" false sampleFsLocal).2 :=
  run_save_ui_local_only "." "." "out.json" false sampleFsLocal
    [("trubric_run_path", "run.py")] "run.py" sampleModule sampleRun
    (by decide) (by decide) (by decide) (by decide) (by decide) (by decide)

/-- C4: with a well-formed run script declaring N validations, the
executed run produces exactly N outcomes, matched to the declarations
index by index, so declaration and execution order is preserved exactly
-- no reordering by severity or pass/fail status -- and the report saved
locally stores exactly that outcome sequence. -/
theorem run_outcomes_order
    (save_ui : Bool) (trubric_config_path p n : String) (remoteOk : Bool) (fs : FS)
    (trubrics_config : Obj) (trubric_run_path : String) (tc : PyModule)
    (run_context : TrubricRun)
    (hcfg : lookupKey fs (trubric_config_path ++ "/" ++ configFileName) =
      some (.json trubrics_config))
    (hrp : lookupKey trubrics_config "trubric_run_path" = some trubric_run_path)
    (hmod : lookupKey fs trubric_run_path = some (.py tc))
    (hrc : tc.RUN_CONTEXT = some (.isTrubricRun run_context)) :
    (run_trubric run_context).length = run_context.validation_plan.length ∧
    (∀ i : Nat, (run_trubric run_context)[i]? =
      (run_context.validation_plan[i]?).map declToResult) ∧
    Eff.saveLocal p n
        { tc.trubric_context with validations := run_trubric run_context } ∈
      (run save_ui trubric_config_path p n remoteOk fs).2 := by
  refine ⟨by simp [run_trubric], fun i => by simp [run_trubric], ?_⟩
  cases save_ui with
  | false => simp [run, hcfg, hrp, hmod, hrc, runLoop_fst]
  | true =>
    cases huser : lookupKey trubrics_config "user_id" with
    | none => simp [run, hcfg, hrp, hmod, hrc, huser, runLoop_fst]
    | some user_id =>
      cases hapi : lookupKey trubrics_config "api_url" with
      | none => simp [run, hcfg, hrp, hmod, hrc, huser, hapi, runLoop_fst]
      | some api_url =>
        simp [run, hcfg, hrp, hmod, hrc, huser, hapi, runLoop_fst]

theorem run_outcomes_order_witness :
    (run_trubric sampleRun).length = sampleRun.validation_plan.length ∧
    (∀ i : Nat, (run_trubric sampleRun)[i]? =
      (sampleRun.validation_plan[i]?).map declToResult) ∧
    Eff.saveLocal "." "out.json"
        { sampleModule.trubric_context with validations := run_trubric sampleRun } ∈
      (run false "." "." "out.json" false sampleFsLocal).2 :=
  run_outcomes_order false "." "." "out.json" false sampleFsLocal
    [("trubric_run_path", "run.py")] "run.py" sampleModule sampleRun
    (by decide) (by decide) (by decide) (by decide)

/-- C7: the local report save comes before any remote save attempt, and a
failing remote save is caught and not fatal: with `--save-ui` on a
remote-enabled config and a failing transport, `run` still returns
normally, its trace splits around the local save with no remote save
before it, and the attempted remote save together with the downgraded
warning comes after the local save. -/
theorem run_local_before_remote
    (trubric_config_path p n : String) (fs : FS)
    (trubrics_config : Obj) (trubric_run_path : String) (tc : PyModule)
    (run_context : TrubricRun) (user_id api_url : String)
    (hcfg : lookupKey fs (trubric_config_path ++ "/" ++ configFileName) =
      some (.json trubrics_config))
    (hrp : lookupKey trubrics_config "trubric_run_path" = some trubric_run_path)
    (hmod : lookupKey fs trubric_run_path = some (.py tc))
    (hrc : tc.RUN_CONTEXT = some (.isTrubricRun run_context))
    (huser : lookupKey trubrics_config "user_id" = some user_id)
    (hapi : lookupKey trubrics_config "api_url" = some api_url) :
    (run true trubric_config_path p n false fs).1 = .ok () ∧
    ∃ pre post,
      (run true trubric_config_path p n false fs).2 =
        pre ++ Eff.saveLocal p n
          { tc.trubric_context with validations := run_trubric run_context } :: post ∧
      (∀ e ∈ pre, e.isSaveRemote = false) ∧
      Eff.saveRemote api_url user_id
          { tc.trubric_context with validations := run_trubric run_context } ∈ post ∧
      Eff.echo remoteWarningMessage ∈ post := by
  have hrun : run true trubric_config_path p n false fs =
      (.ok (), Eff.importModule trubric_run_path
        :: Eff.echo (headerMessage trubric_run_path run_context tc)
        :: ((run_trubric run_context).map (fun v => Eff.echo (message v))
          ++ [Eff.saveLocal p n
                { tc.trubric_context with validations := run_trubric run_context },
              Eff.saveRemote api_url user_id
                { tc.trubric_context with validations := run_trubric run_context },
              Eff.echo remoteWarningMessage])) := by
    simp [run, hcfg, hrp, hmod, hrc, huser, hapi, runLoop_fst, runLoop_snd,
      TrubricContext.save_ui]
  rw [hrun]
  refine ⟨rfl, Eff.importModule trubric_run_path
      :: Eff.echo (headerMessage trubric_run_path run_context tc)
      :: (run_trubric run_context).map (fun v => Eff.echo (message v)),
    [Eff.saveRemote api_url user_id
       { tc.trubric_context with validations := run_trubric run_context },
     Eff.echo remoteWarningMessage], by simp, ?_, by simp, by simp⟩
  intro e he
  simp only [List.mem_cons, List.mem_map] at he
  rcases he with rfl | rfl | ⟨v, hv, rfl⟩ <;> rfl

theorem run_local_before_remote_witness :
    (run true "." "." "out.json" false sampleFsRemote).1 = .ok () ∧
    ∃ pre post,
      (run true "." "." "out.json" false sampleFsRemote).2 =
        pre ++ Eff.saveLocal "." "out.json"
          { sampleModule.trubric_context with
              validations := run_trubric sampleRun } :: post ∧
      (∀ e ∈ pre, e.isSaveRemote = false) ∧
      Eff.saveRemote "http://api" "u1"
          { sampleModule.trubric_context with
              validations := run_trubric sampleRun } ∈ post ∧
      Eff.echo remoteWarningMessage ∈ post :=
  run_local_before_remote "." "." "out.json" sampleFsRemote
    [("trubric_run_path", "run.py"), ("api_url", "http://api"), ("user_id", "u1")]
    "run.py" sampleModule sampleRun "u1" "http://api"
    (by decide) (by decide) (by decide) (by decide) (by decide) (by decide)

/-- C3: during `init` with a remote url, a handshake response containing
an `is_user` key makes the command raise -- the `typer.Abort`, or the
`KeyError` when the rejection body lacks `msg`, both turned into a
non-zero exit -- and no config file is written: the trace holds no file
write and applying it leaves the filesystem unchanged. -/
theorem init_auth_rejected
    (trubrics_api_url : Option String) (uid : String) (handshakeResponse : Obj)
    (trubric_run_path trubric_config_path : String) (fs : FS)
    (htr : truthy trubrics_api_url = true)
    (hrej : containsKey handshakeResponse "is_user" = true) :
    resultIsError (init trubrics_api_url uid handshakeResponse trubric_run_path
      trubric_config_path fs).1 = true ∧
    ((init trubrics_api_url uid handshakeResponse trubric_run_path
        trubric_config_path fs).2.all
      (fun e => !e.isFileWrite && !e.isSaveLocal)) = true ∧
    applyEffs fs (init trubrics_api_url uid handshakeResponse trubric_run_path
      trubric_config_path fs).2 = fs := by
  cases hm : lookupKey handshakeResponse "msg" with
  | some m =>
    simp [init, htr, hrej, hm, resultIsError, Eff.isFileWrite, Eff.isSaveLocal,
      applyEffs, applyEff]
  | none =>
    simp [init, htr, hrej, hm, resultIsError, Eff.isFileWrite, Eff.isSaveLocal,
      applyEffs, applyEff]

theorem init_auth_rejected_witness :
    resultIsError (init (some "http://api") "u1"
      [("is_user", "false"), ("msg", "user not found")] "run.py" "."
      sampleFsLocal).1 = true ∧
    ((init (some "http://api") "u1"
        [("is_user", "false"), ("msg", "user not found")] "run.py" "."
        sampleFsLocal).2.all
      (fun e => !e.isFileWrite && !e.isSaveLocal)) = true ∧
    applyEffs sampleFsLocal (init (some "http://api") "u1"
      [("is_user", "false"), ("msg", "user not found")] "run.py" "."
      sampleFsLocal).2 = sampleFsLocal :=
  init_auth_rejected (some "http://api") "u1"
    [("is_user", "false"), ("msg", "user not found")] "run.py" "." sampleFsLocal
    (by decide) (by decide)

/-- C10: `init` validates the run path after the optional handshake and
before writing anything: when the path is missing from the filesystem or
does not end in `.py`, it raises `missingTrubricRunFileError` and no
config file is written, even when remote authentication already
succeeded -- the trace holds no file write and leaves the filesystem
unchanged. -/
theorem init_missing_run_file
    (trubrics_api_url : Option String) (uid : String) (handshakeResponse : Obj)
    (trubric_run_path trubric_config_path : String) (fs : FS)
    (hok : truthy trubrics_api_url = true →
      containsKey handshakeResponse "is_user" = false)
    (hbad : containsKey fs trubric_run_path = false ∨
      strEndsWith trubric_run_path ".py" = false) :
    (init trubrics_api_url uid handshakeResponse trubric_run_path
      trubric_config_path fs).1 = .error (.missingTrubricRunFileError
        "Trubric run file path does not exist or is not a .py file.") ∧
    ((init trubrics_api_url uid handshakeResponse trubric_run_path
        trubric_config_path fs).2.all
      (fun e => !e.isFileWrite && !e.isSaveLocal)) = true ∧
    applyEffs fs (init trubrics_api_url uid handshakeResponse trubric_run_path
      trubric_config_path fs).2 = fs := by
  have hcond : (!containsKey fs trubric_run_path
      || !strEndsWith trubric_run_path ".py") = true := by
    rcases hbad with h | h <;> simp [h]
  cases htr : truthy trubrics_api_url with
  | true =>
    have hrej := hok htr
    simp [init, htr, hrej, finishInit, hcond, applyEffs, applyEff,
      Eff.isFileWrite, Eff.isSaveLocal]
  | false =>
    simp [init, htr, finishInit, hcond, applyEffs, applyEff,
      Eff.isFileWrite, Eff.isSaveLocal]

theorem init_missing_run_file_witness :
    (init (some "http://api") "u1" [("msg", "ok")] "missing.py" "." []).1 =
      .error (.missingTrubricRunFileError
        "Trubric run file path does not exist or is not a .py file.") ∧
    ((init (some "http://api") "u1" [("msg", "ok")] "missing.py" "." []).2.all
      (fun e => !e.isFileWrite && !e.isSaveLocal)) = true ∧
    applyEffs [] (init (some "http://api") "u1" [("msg", "ok")]
      "missing.py" "." []).2 = [] :=
  init_missing_run_file (some "http://api") "u1" [("msg", "ok")] "missing.py" "." []
    (by decide) (by decide)

/-- C1 counterexample: `init` with a remote url and an accepting handshake
response that carries no `user_id` key writes a config record in which
`api_url` is present but `user_id` is absent, so a written record can
have one of the two keys without the other. -/
theorem init_keys_counterexample :
    Eff.fileWrite ("." ++ "/" ++ configFileName)
        [("api_url", "http://api"), ("trubric_run_path", "run.py")] ∈
      (init (some "http://api") "u1" [] "run.py" "."
        [("run.py", FileContent.py sampleModule)]).2 ∧
    containsKey [("api_url", "http://api"), ("trubric_run_path", "run.py")]
      "api_url" = true ∧
    containsKey [("api_url", "http://api"), ("trubric_run_path", "run.py")]
      "user_id" = false := by
  decide

/-- C1 amended: in every config record written by `init`, written without
a remote url neither `api_url` nor `user_id` is present; written with a
remote url `api_url` is always present, while `user_id` is present
exactly when the accepted handshake response body carried a `user_id`
key -- its presence is determined by the remote response, not enforced by
`init`. -/
theorem init_written_record_keys
    (trubrics_api_url : Option String) (uid : String) (handshakeResponse : Obj)
    (trubric_run_path trubric_config_path : String) (fs : FS) (p : String) (o : Obj)
    (hw : Eff.fileWrite p o ∈ (init trubrics_api_url uid handshakeResponse
      trubric_run_path trubric_config_path fs).2) :
    (truthy trubrics_api_url = false →
      containsKey o "api_url" = false ∧ containsKey o "user_id" = false) ∧
    (truthy trubrics_api_url = true →
      containsKey o "api_url" = true ∧
      containsKey o "user_id" = containsKey handshakeResponse "user_id") := by
  have e1 : ("api_url" == "user_id") = false := by decide
  have e2 : ("trubric_run_path" == "user_id") = false := by decide
  have e3 : ("trubric_run_path" == "api_url") = false := by decide
  cases htr : truthy trubrics_api_url with
  | false =>
    simp only [init, htr, Bool.false_eq_true, if_false, finishInit] at hw
    by_cases hcond : (!containsKey fs trubric_run_path
        || !strEndsWith trubric_run_path ".py") = true
    · simp [hcond] at hw
    · simp only [Bool.not_eq_true] at hcond
      simp only [hcond, Bool.false_eq_true, if_false, List.cons_append,
        List.nil_append, List.mem_cons, List.not_mem_nil, or_false, false_or,
        reduceCtorEq, Eff.fileWrite.injEq] at hw
      obtain ⟨rfl, rfl⟩ := hw
      refine ⟨fun _ => ?_, fun h => Bool.noConfusion h⟩
      constructor <;> simp [setKey, containsKey, e2, e3]
  | true =>
    cases hrej : containsKey handshakeResponse "is_user" with
    | true =>
      cases hm : lookupKey handshakeResponse "msg" with
      | some m => simp [init, htr, hrej, hm] at hw
      | none => simp [init, htr, hrej, hm] at hw
    | false =>
      simp only [init, htr, if_true, hrej, Bool.false_eq_true, if_false,
        finishInit] at hw
      by_cases hcond : (!containsKey fs trubric_run_path
          || !strEndsWith trubric_run_path ".py") = true
      · simp [hcond] at hw
      · simp only [Bool.not_eq_true] at hcond
        simp only [hcond, Bool.false_eq_true, if_false, List.cons_append,
          List.nil_append, List.mem_cons, List.not_mem_nil, or_false, false_or,
          reduceCtorEq, Eff.fileWrite.injEq] at hw
        obtain ⟨rfl, rfl⟩ := hw
        refine ⟨fun h => Bool.noConfusion h, fun _ => ?_⟩
        constructor
        · rw [containsKey_setKey, containsKey_setKey]
          simp [e3]
        · rw [containsKey_setKey, containsKey_setKey]
          simp [e1, e2]

theorem init_written_record_keys_witness :
    (truthy (some "http://api") = false →
      containsKey [("user_id", "u1"), ("api_url", "http://api"),
        ("trubric_run_path", "run.py")] "api_url" = false ∧
      containsKey [("user_id", "u1"), ("api_url", "http://api"),
        ("trubric_run_path", "run.py")] "user_id" = false) ∧
    (truthy (some "http://api") = true →
      containsKey [("user_id", "u1"), ("api_url", "http://api"),
        ("trubric_run_path", "run.py")] "api_url" = true ∧
      containsKey [("user_id", "u1"), ("api_url", "http://api"),
        ("trubric_run_path", "run.py")] "user_id" =
        containsKey [("user_id", "u1")] "user_id") :=
  init_written_record_keys (some "http://api") "u1" [("user_id", "u1")]
    "run.py" "." [("run.py", FileContent.py sampleModule)]
    "./.trubrics_config.json"
    [("user_id", "u1"), ("api_url", "http://api"), ("trubric_run_path", "run.py")]
    (by decide)

/-- A validation result with a short label: its marker starts at the
fixed column 100. -/
def shortResult : ValidationResult :=
  { validation_type := "validate_minimum_functionality", severity := "error",
    outcome := "pass" }

/-- A validation result whose combined label is 105 characters long,
exceeding the fixed width of 100. -/
def longLabelResult : ValidationResult :=
  { validation_type := String.mk (List.replicate 97 'a'), severity := "error",
    outcome := "fail" }

/-- C8 counterexample: reported lines are padded to the fixed total width
100, not to a width independent of the label: an outcome whose
kind/severity label exceeds 100 characters gets its pass/fail marker
beyond column 100, so the markers of these two outcomes do not align at
the same column. -/
theorem message_alignment_counterexample :
    markerColumn shortResult = 100 ∧
    markerColumn longLabelResult = 105 ∧
    markerColumn shortResult ≠ markerColumn longLabelResult := by decide

/-- C8 amended: each reported line combines the validation kind, the
upper-cased severity and a pass/fail marker, dot-padded to the fixed
total width 100, so the markers align at column 100 across all outcomes
whose combined kind/severity label is at most 100 characters long; a
longer label pushes its marker further right. -/
theorem message_marker_alignment (validation_result : ValidationResult)
    (h : (message_start validation_result).length ≤ 100) :
    message validation_result =
      message_start validation_result ++ completed_dots validation_result
        ++ ending validation_result ∧
    markerColumn validation_result = 100 ∧
    ending validation_result =
      (if validation_result.outcome == "pass" then "PASSED" else "FAILED") := by
  refine ⟨rfl, ?_, rfl⟩
  have hlen : (completed_dots validation_result).length =
      100 - (message_start validation_result).length := by
    have hmk : (completed_dots validation_result).length =
        (List.replicate (100 - (message_start validation_result).length)
          '.').length := rfl
    rw [hmk, List.length_replicate]
  unfold markerColumn
  rw [String.length_append, hlen]
  omega

theorem message_marker_alignment_witness :
    (message_start shortResult).length ≤ 100 ∧
    (message shortResult =
      message_start shortResult ++ completed_dots shortResult
        ++ ending shortResult ∧
    markerColumn shortResult = 100 ∧
    ending shortResult =
      (if shortResult.outcome == "pass" then "PASSED" else "FAILED")) :=
  ⟨by decide, message_marker_alignment shortResult (by decide)⟩
